import Mathlib

/-!
Verification of the TrueDose evidence-scoring pipeline
(`src/extension/popup.js`), shallowly embedded in Lean 4.

JavaScript numbers are modelled as rationals (`ℚ`), JS `undefined`/absent
object fields as `Option`, and the external collaborators (PubMed,
Semantic Scholar, the Chrome AI sessions) as oracle parameters.  The
`Math.log10` library function is modelled as an explicit function
parameter `log10 : ℕ → ℚ`; theorems that depend on it assume only facts
that are true of the real base-10 logarithm.
-/

/-! ### JavaScript value helpers -/

/-- Models the JS expression `x || d` for an optional number `x`:
`undefined` and `0` are falsy and yield the default. -/
def jsOrQ (x : Option ℚ) (d : ℚ) : ℚ :=
  match x with
  | none => d
  | some v => if v = 0 then d else v

/-- Models the JS expression `x || d` for an optional natural number. -/
def jsOrNat (x : Option ℕ) (d : ℕ) : ℕ :=
  match x with
  | none => d
  | some v => if v = 0 then d else v

/-- Models the JS expression `x || d` for an optional integer
(`parseInt(..) || currentYear`): `NaN` and `0` are falsy. -/
def jsOrInt (x : Option ℤ) (d : ℤ) : ℤ :=
  match x with
  | none => d
  | some v => if v = 0 then d else v

/-- Models the JS expression `a || b` for optional strings, where
`undefined` and the empty string are falsy. -/
def jsOrStr (a b : Option String) : Option String :=
  match a with
  | none => b
  | some s => if s = "" then b else some s

/-- Models JS truthiness of an optional string field
(used in filters such as `papers.filter(p => p.abstract)`). -/
def jsTruthyStr (x : Option String) : Bool :=
  match x with
  | none => false
  | some s => s != ""

/-- Models `String.prototype.toLowerCase` (ASCII case folding, which is
all the pipeline's title comparisons need). -/
def jsToLower (s : String) : String :=
  ⟨s.data.map Char.toLower⟩

/-- Accumulates decimal digits; `none` when a non-digit is met.  Helper
for `jsParseInt`. -/
def digitsToNat : List Char → ℕ → Option ℕ
  | [], acc => some acc
  | c :: cs, acc =>
      if c.isDigit then digitsToNat cs (acc * 10 + (c.toNat - 48)) else none

/-- Models `parseInt` on the year strings the pipeline feeds it: a fully
numeric (optionally `-`-signed) string parses to its value, anything
else is `NaN`, modelled as `none`. -/
def jsParseInt (s : String) : Option ℤ :=
  match s.data with
  | [] => none
  | '-' :: cs =>
      if cs = [] then none else (digitsToNat cs 0).map (fun n => -(n : ℤ))
  | cs =>
      if (cs.headD ' ').isDigit then (digitsToNat cs 0).map (fun n => (n : ℤ))
      else none

/-! ### Data model (the mutated-in-place JS paper object becomes one
structure with optional late-attached fields) -/

/-- Paper provenance (`source` field). -/
inductive Source where
  | pubmed
  | semantic_scholar
deriving DecidableEq, Repr

/-- The JSON object produced by the per-paper sentiment call
(`{sentiment, confidence, reason}`).  The sentiment is kept as a raw
string because the code compares it with `=== 'POSITIVE'` etc. and
buckets everything else as neutral. -/
structure PaperSentiment where
  sentiment : String
  confidence : Option ℚ
  reason : String
deriving DecidableEq, Repr

/-- Demographics block of the study-metadata JSON. -/
structure Demographics where
  age : String := "not reported"
  gender : String := "not reported"
  population : String := "not reported"
deriving DecidableEq, Repr

/-- Statistics block of the study-metadata JSON. -/
structure StudyStatistics where
  pValue : String := "not reported"
  effectSize : String := "not reported"
  significant : Option Bool := none
deriving DecidableEq, Repr

/-- The study-metadata JSON attached by `extractStudyMetadata`. -/
structure StudyMetadata where
  studyType : String := "not reported"
  sampleSize : String := "not reported"
  demographics : Demographics := {}
  statistics : StudyStatistics := {}
deriving DecidableEq, Repr

/-- A paper object as it flows through the pipeline.  Fields attached by
later stages (`recencyScore` … `paperSentiment`) start absent. -/
structure Paper where
  title : String
  authors : String := "Unknown"
  journal : String := "Unknown"
  year : String := "Unknown"
  citations : Option ℕ := none
  influentialCitations : Option ℕ := none
  paperId : Option String := none
  abstract : Option String := none
  url : String := ""
  doi : Option String := none
  pmid : Option String := none
  source : Source
  recencyScore : Option ℚ := none
  influentialScore : Option ℚ := none
  qualityScore : Option ℚ := none
  studyMetadata : Option StudyMetadata := none
  summary : Option String := none
  paperSentiment : Option PaperSentiment := none
deriving DecidableEq, Repr

/-- The `{papers, count, medicalQuery}` object returned by `searchHybrid`. -/
structure SearchResults where
  papers : List Paper
  count : ℕ
  medicalQuery : String
deriving DecidableEq, Repr

/-- Sentiment percentage breakdown (`researchBreakdown`). -/
structure Breakdown where
  positive : ℤ
  negative : ℤ
  neutral : ℤ
deriving DecidableEq, Repr

/-- The object returned by `calculateTruthScore`. -/
structure TruthScoreResult where
  truthScore : ℤ
  confidence : ℕ
  paperCount : ℕ
  breakdown : Breakdown
deriving DecidableEq, Repr

/-! ### calculateTruthScore (popup.js lines 521-601) -/

/-- `pubmedResults.papers.filter(p => p.paperSentiment)`. -/
def papersWithSentiment (papers : List Paper) : List Paper :=
  papers.filter (fun p => p.paperSentiment.isSome)

/-- `papersWithSentiment.reduce((sum, paper) => sum + (paper.qualityScore || 0.5), 0)`. -/
def totalQualityWeight (pws : List Paper) : ℚ :=
  pws.foldl (fun sum paper => sum + jsOrQ paper.qualityScore 0.5) 0

/-- The `forEach` loop accumulating `weightedPositive`, `weightedNegative`,
`weightedNeutral`.  A paper without a sentiment cannot occur in the
filtered input; that branch returns the accumulator unchanged. -/
def weightedSentiments (pws : List Paper) : ℚ × ℚ × ℚ :=
  let total := totalQualityWeight pws
  pws.foldl (fun acc paper =>
    match paper.paperSentiment with
    | none => acc
    | some s =>
        let weight := jsOrQ paper.qualityScore 0.5 / total
        let confidence := jsOrQ s.confidence 0.5
        if s.sentiment = "POSITIVE" then
          (acc.1 + weight * confidence, acc.2.1, acc.2.2)
        else if s.sentiment = "NEGATIVE" then
          (acc.1, acc.2.1 + weight * confidence, acc.2.2)
        else
          (acc.1, acc.2.1, acc.2.2 + weight * confidence)) (0, 0, 0)

/-- `researchBreakdown = { positive: Math.round(weightedPositive * 100), ... }`. -/
def researchBreakdownOf (pws : List Paper) : Breakdown :=
  let w := weightedSentiments pws
  { positive := round (w.1 * 100)
    negative := round (w.2.1 * 100)
    neutral := round (w.2.2 * 100) }

/-- The confidence step function on `pubmedResults.count`. -/
def confidenceBand (count : ℕ) : ℕ :=
  if count ≥ 5 then 90
  else if count ≥ 3 then 80
  else if count ≥ 1 then 60
  else 50

/-- `calculateTruthScore(pubmedResults, claim)`: quality- and
confidence-weighted sentiment percentages, truth score
`clamp(positive% - negative%, 0, 100)`, confidence banded by paper
count.  The `claim` argument is never read by the source body. -/
def calculateTruthScore (pubmedResults : SearchResults) (claim : String) :
    TruthScoreResult :=
  let pws := papersWithSentiment pubmedResults.papers
  let core : ℚ × Breakdown :=
    if pubmedResults.papers.length > 0 then
      if pws.length > 0 then
        let rb := researchBreakdownOf pws
        let supportPercent := rb.positive
        let contradictPercent := rb.negative
        let ts : ℚ := ((supportPercent - contradictPercent : ℤ) : ℚ)
        (max 0 (min 100 ts), rb)
      else
        (50, { positive := 0, negative := 0, neutral := 0 })
    else
      (50, { positive := 0, negative := 0, neutral := 0 })
  { truthScore := round core.1
    confidence := confidenceBand pubmedResults.count
    paperCount := pubmedResults.count
    breakdown := core.2 }

/-! ### Citation enrichment (popup.js lines 243-300) -/

/-- The fields fetched from the Semantic Scholar per-paper lookup. -/
structure S2Data where
  citationCount : Option ℕ := none
  influentialCitationCount : Option ℕ := none
  abstract : Option String := none
  paperId : Option String := none
deriving DecidableEq, Repr

/-- `enrichPubMedWithCitations`: each PubMed paper is looked up on the
second source (DOI first, then PMID; rate limits and network failures
all collapse to a missing result, modelled by the oracle returning
`none`).  On success the citation counts and abstract are merged in; on
failure the counts default to zero. -/
def enrichPubMedWithCitations (s2Lookup : Paper → Option S2Data)
    (pubmedPapers : List Paper) : List Paper :=
  pubmedPapers.map (fun paper =>
    match s2Lookup paper with
    | some s2Data =>
        { paper with
          citations := some (jsOrNat s2Data.citationCount 0)
          influentialCitations := some (jsOrNat s2Data.influentialCitationCount 0)
          abstract := jsOrStr s2Data.abstract paper.abstract
          paperId := s2Data.paperId }
    | none => { paper with citations := some 0, influentialCitations := some 0 })

/-! ### Abstract backfill (popup.js lines 303-329) -/

/-- `fetchMissingAbstracts`: papers with no (truthy) abstract but with a
PMID get an individual fetch; on success the abstract is attached, on
failure (or when the XML regex finds nothing) the paper is left as is.
The fetch-and-extract is the `backfill` oracle. -/
def fetchMissingAbstracts (backfill : Paper → Option String)
    (papers : List Paper) : List Paper :=
  papers.map (fun paper =>
    if jsTruthyStr paper.abstract = false ∧ paper.pmid.isSome then
      match backfill paper with
      | some abs => { paper with abstract := some abs }
      | none => paper
    else paper)

/-! ### Merge and deduplication (popup.js lines 353-368) -/

/-- The duplicate test of the merge loop:
`(paper.doi && seenDOIs.has(paper.doi)) || seenTitles.has(paper.title.toLowerCase())`. -/
def dedupeIsDuplicate (seenDOIs seenTitles : List String) (paper : Paper) : Bool :=
  (match paper.doi with
   | some d => d != "" && seenDOIs.contains d
   | none => false) || seenTitles.contains (jsToLower paper.title)

/-- `if (paper.doi) seenDOIs.add(paper.doi)`. -/
def dedupeAddDoi (seenDOIs : List String) (paper : Paper) : List String :=
  match paper.doi with
  | some d => if d ≠ "" then d :: seenDOIs else seenDOIs
  | none => seenDOIs

/-- The `for`-loop of the merge step: appends each non-duplicate PubMed
paper to the accumulator and records its DOI and lowercased title. -/
def mergeStep : List Paper → List String → List String → List Paper → List Paper
  | acc, _, _, [] => acc
  | acc, ds, ts, paper :: rest =>
      if dedupeIsDuplicate ds ts paper = true then mergeStep acc ds ts rest
      else
        mergeStep (acc ++ [paper]) (dedupeAddDoi ds paper)
          (jsToLower paper.title :: ts) rest

/-- `new Set(semanticPapers.map(p => p.doi).filter(Boolean))`. -/
def semanticDOIs (semanticPapers : List Paper) : List String :=
  semanticPapers.filterMap (fun p =>
    match p.doi with
    | some d => if d ≠ "" then some d else none
    | none => none)

/-- The merge-and-deduplicate step of `searchHybrid`: Semantic Scholar
papers first, then each PubMed paper that is not a duplicate by DOI or
by lowercased title. -/
def mergeDedup (semanticPapers enrichedPubMed : List Paper) : List Paper :=
  mergeStep semanticPapers (semanticDOIs semanticPapers)
    (semanticPapers.map (fun p => jsToLower p.title)) enrichedPubMed

/-! ### Quality ranking (popup.js lines 402-441) -/

/-- The per-paper scoring closure of `rankPapersByQualityScore`:
`recencyScore = max(0, 1 - age/20)`, `influentialScore =
log10(influentialCitations + 1)/3.5`, `qualityScore = 0.6*influential +
0.4*recency`.  `Math.log10` is the `log10` parameter. -/
def scorePaper (currentYear : ℤ) (log10 : ℕ → ℚ) (paper : Paper) : Paper :=
  let yearInt : ℤ := jsOrInt (jsParseInt paper.year) currentYear
  let age : ℤ := currentYear - yearInt
  let recencyScore : ℚ := max 0 (1 - (age : ℚ) / 20)
  let influentialCount : ℕ := jsOrNat paper.influentialCitations 0
  let influentialScore : ℚ := log10 (influentialCount + 1) / 3.5
  let qualityScore : ℚ := influentialScore * 0.6 + recencyScore * 0.4
  { paper with
    recencyScore := some recencyScore
    influentialScore := some influentialScore
    qualityScore := some qualityScore }

/-- The sort comparator `(a, b) => b.qualityScore - a.qualityScore`:
`a` precedes `b` exactly when the comparator is `≤ 0`, i.e. when
`b.qualityScore ≤ a.qualityScore`. -/
def rankRel (a b : Paper) : Prop :=
  b.qualityScore.getD 0 ≤ a.qualityScore.getD 0

instance : DecidableRel rankRel := fun a b =>
  inferInstanceAs (Decidable (b.qualityScore.getD 0 ≤ a.qualityScore.getD 0))

/-- `rankPapersByQualityScore`: score every paper, then stable-sort by
descending quality score (JS `Array.prototype.sort` is stable; insertion
sort realises the same stable order). -/
def rankPapersByQualityScore (currentYear : ℤ) (log10 : ℕ → ℚ)
    (papers : List Paper) : List Paper :=
  let scoredPapers := papers.map (scorePaper currentYear log10)
  List.insertionSort rankRel scoredPapers

/-! ### Study metadata extraction (popup.js lines 456-519) -/

/-- `extractStudyMetadata`: one model call per paper in parallel; a
parse failure leaves `studyMetadata = null` for that paper, a session
failure (`session = none`) returns the papers unchanged. -/
def extractStudyMetadata (session : Option (Paper → Option StudyMetadata))
    (papers : List Paper) : List Paper :=
  match session with
  | none => papers
  | some f =>
      papers.map (fun paper =>
        match f paper with
        | some metadata => { paper with studyMetadata := some metadata }
        | none => { paper with studyMetadata := none })

/-! ### Hybrid search (popup.js lines 332-398) -/

/-- The oracle-valued inputs of one `searchHybrid` run: the two search
responses, the enrichment/backfill/metadata collaborators, and the
ambient `currentYear` and `Math.log10`. -/
structure HybridInputs where
  currentYear : ℤ
  log10 : ℕ → ℚ
  medicalQuery : String
  pubmedPapers : List Paper
  semanticPapers : List Paper
  s2Lookup : Paper → Option S2Data
  backfill : Paper → Option String
  metaSession : Option (Paper → Option StudyMetadata)

/-- The merged, backfilled, abstract-filtered paper list — everything
that survives the filters before ranking caps it at five. -/
def survivingPapers (inp : HybridInputs) : List Paper :=
  (fetchMissingAbstracts inp.backfill
      (mergeDedup inp.semanticPapers
        (enrichPubMedWithCitations inp.s2Lookup inp.pubmedPapers))).filter
    (fun p => jsTruthyStr p.abstract)

/-- The pure core of `searchHybrid` after the two searches resolved:
early-out when both sources are empty, else enrich, merge, backfill,
filter, rank, take the top 5 and attach metadata. -/
def searchHybridCore (inp : HybridInputs) : SearchResults :=
  if inp.pubmedPapers.length = 0 ∧ inp.semanticPapers.length = 0 then
    { papers := [], count := 0, medicalQuery := inp.medicalQuery }
  else
    let rankedPapers :=
      rankPapersByQualityScore inp.currentYear inp.log10 (survivingPapers inp)
    let top5Papers := rankedPapers.take 5
    let papersWithMetadata := extractStudyMetadata inp.metaSession top5Papers
    { papers := papersWithMetadata
      count := papersWithMetadata.length
      medicalQuery := inp.medicalQuery }

/-! ### Abstract collection and summarisation (popup.js lines 443-453, 605-647) -/

/-- The `{paperId, title, abstract}` items built by `fetchAbstracts`
(`pmid` is not copied, hence absent). -/
structure AbstractItem where
  paperId : Option String
  pmid : Option String
  title : String
  abstract : Option String
deriving DecidableEq, Repr

/-- `fetchAbstracts`: projects each paper to `{paperId, title, abstract}`. -/
def fetchAbstracts (papers : List Paper) : List AbstractItem :=
  papers.map (fun paper =>
    { paperId := paper.paperId, pmid := none, title := paper.title,
      abstract := paper.abstract })

/-- A `{paperId, pmid, title, summary}` item produced by
`summarizeAbstracts`. -/
structure SummaryItem where
  paperId : Option String
  pmid : Option String
  title : String
  summary : String
deriving DecidableEq, Repr

/-- `summarizeAbstracts`: summariser session unavailable (`none`) or a
per-item failure falls back to the first 200 characters of the abstract
plus an ellipsis; callers only pass items whose abstract is present. -/
def summarizeAbstracts (summarizer : Option (String → Option String))
    (abstracts : List AbstractItem) : List SummaryItem :=
  match summarizer with
  | none =>
      abstracts.map (fun item =>
        { paperId := item.paperId, pmid := item.pmid, title := item.title,
          summary := (item.abstract.getD "").take 200 ++ "..." })
  | some f =>
      abstracts.map (fun item =>
        match f (item.abstract.getD "") with
        | some summary =>
            { paperId := item.paperId, pmid := item.pmid, title := item.title,
              summary := summary }
        | none =>
            { paperId := item.paperId, pmid := item.pmid, title := item.title,
              summary := (item.abstract.getD "").take 200 ++ "..." })

/-- The merge of summaries back into papers in `onCheckClick`:
`summary = summaries.find(s => s.title === paper.title)?.summary ||
paper.abstract?.substring(0, 200) || 'No summary available'`. -/
def mergeSummaries (papers : List Paper) (summaries : List SummaryItem) :
    List Paper :=
  papers.map (fun paper =>
    let found := (summaries.find? (fun s => s.title == paper.title)).map
      (fun s => s.summary)
    let truncated := paper.abstract.map (fun a => a.take 200)
    { paper with
      summary := jsOrStr (jsOrStr found truncated) (some "No summary available") })

/-! ### Sentiment analysis (popup.js lines 650-718) -/

/-- The per-paper body of `analyzePapers`: a successful model call
attaches the parsed sentiment; a throw (or unparseable response) in the
per-paper `catch` attaches the exact neutral fallback. -/
def analyzeOnePaper (f : String → Paper → Option PaperSentiment)
    (claim : String) (paper : Paper) : Paper :=
  match f claim paper with
  | some sentiment => { paper with paperSentiment := some sentiment }
  | none =>
      { paper with
        paperSentiment :=
          some { sentiment := "NEUTRAL", confidence := some 0.5,
                 reason := "Analysis failed" } }

/-- `analyzePapers`: when the language-model session itself cannot be
created the outer `catch` returns the papers unchanged; otherwise every
paper is analysed independently (the empty-input early return coincides
with mapping over the empty list). -/
def analyzePapers (session : Option (String → Paper → Option PaperSentiment))
    (claim : String) (papers : List Paper) : List Paper :=
  match session with
  | none => papers
  | some f => papers.map (analyzeOnePaper f claim)

/-! ### Narrative prompt (popup.js lines 739-765) -/

/-- A summary item extended with the `simplified` alias added in
`onCheckClick` (`{ ...s, simplified: s.summary }`). -/
structure SimplifiedItem where
  paperId : Option String
  pmid : Option String
  title : String
  summary : String
  simplified : String
deriving DecidableEq, Repr

/-- The numbered research-summary entries of `buildFactCheckPrompt`:
one entry per element of `simplified`, numbered from 1, title plus
the best-available summary. -/
def factCheckEntries (simplified : List SimplifiedItem) : List String :=
  simplified.enum.map (fun p =>
    toString (p.1 + 1) ++ ". " ++ p.2.title ++ "\n   Key findings: " ++
      p.2.simplified)

/-- `buildFactCheckPrompt`: the single narrative-generation prompt,
concatenating claim, truth score with breakdown, and the numbered
research summary. -/
def buildFactCheckPrompt (claim : String) (pubmedResults : SearchResults)
    (simplified : List SimplifiedItem) (truthScore : TruthScoreResult) :
    String :=
  let researchSummary := String.intercalate "\n\n" (factCheckEntries simplified)
  "You are a medical fact-checker analyzing health claims using peer-reviewed scientific research.\n\n" ++
  "CLAIM TO VERIFY:\n\x22" ++ claim ++ "\x22\n\n" ++
  "TRUTH SCORE: " ++ toString truthScore.truthScore ++ "% (Confidence: " ++
    toString truthScore.confidence ++ "%)\n" ++
  "- Based on " ++ toString truthScore.paperCount ++ " peer-reviewed papers\n" ++
  "- " ++ toString truthScore.breakdown.positive ++ "% support, " ++
    toString truthScore.breakdown.negative ++ "% contradict, " ++
    toString truthScore.breakdown.neutral ++ "% neutral\n\n" ++
  "SCIENTIFIC RESEARCH (" ++ toString pubmedResults.count ++ " papers analyzed):\n" ++
  researchSummary ++ "\n\n" ++
  "TASK: Provide a CONCISE fact-check analysis:\n\n" ++
  "1. WHAT THE RESEARCH SHOWS: Summarize the scientific consensus in 3-4 sentences. Be specific about what studies found.\n\n" ++
  "2. BOTTOM LINE: Key takeaway in 1-2 sentences. What should people know?\n\n" ++
  "3. CAVEATS: Any important limitations or nuances (1-2 sentences).\n\n" ++
  "Keep response under 150 words total. Be objective and evidence-based."

/-! ### The claim-check pipeline (popup.js lines 961-1073) -/

/-- All collaborators of one `onCheckClick` run. -/
structure PipelineInputs extends HybridInputs where
  claim : String
  summarizer : Option (String → Option String)
  analyzeSession : Option (String → Paper → Option PaperSentiment)

/-- The observable endings of one claim check: either the terminal
"no research found" state (reached before scoring, with no
narrative-generation call), or a completed run carrying the narrative
prompt, the truth score and the simplified summaries. -/
inductive PipelineOutcome where
  | noResearch : PipelineOutcome
  | completed : String → TruthScoreResult → List SimplifiedItem → PipelineOutcome
deriving DecidableEq

/-- The data flow of `onCheckClick` after the hybrid search: abort on
`count === 0`, else summarise, merge summaries, analyse sentiment,
score, and build the narrative prompt. -/
def runFactCheck (inp : PipelineInputs) : PipelineOutcome :=
  let pubmedResults := searchHybridCore inp.toHybridInputs
  if pubmedResults.count = 0 then PipelineOutcome.noResearch
  else
    let abstracts := fetchAbstracts pubmedResults.papers
    let summaries := summarizeAbstracts inp.summarizer abstracts
    let papersWithSummaries := mergeSummaries pubmedResults.papers summaries
    let papersWithAnalysis :=
      analyzePapers inp.analyzeSession inp.claim papersWithSummaries
    let pubmedResults2 :=
      { pubmedResults with papers := papersWithAnalysis }
    let simplified := summaries.map (fun s =>
      { paperId := s.paperId, pmid := s.pmid, title := s.title,
        summary := s.summary, simplified := s.summary })
    let truthScore := calculateTruthScore pubmedResults2 inp.claim
    let prompt := buildFactCheckPrompt inp.claim pubmedResults2 simplified truthScore
    PipelineOutcome.completed prompt truthScore simplified

/-- The number of numbered research entries the narrative prompt of an
outcome contains (zero when no prompt was built). -/
def outcomeEntryCount : PipelineOutcome → ℕ
  | PipelineOutcome.noResearch => 0
  | PipelineOutcome.completed _ _ simplified => (factCheckEntries simplified).length

/-- The titles listed in the narrative prompt of an outcome. -/
def outcomeTitles : PipelineOutcome → List String
  | PipelineOutcome.noResearch => []
  | PipelineOutcome.completed _ _ simplified => simplified.map (fun s => s.title)

/-! ### Helper lemmas -/

/-- Both stages that can rewrite the paper list of `extractStudyMetadata`
preserve its length. -/
theorem length_extractStudyMetadata
    (session : Option (Paper → Option StudyMetadata)) (papers : List Paper) :
    (extractStudyMetadata session papers).length = papers.length := by
  cases session <;> simp [extractStudyMetadata]

/-- `rankPapersByQualityScore` permutes its input, so it preserves length. -/
theorem length_rankPapersByQualityScore (currentYear : ℤ) (log10 : ℕ → ℚ)
    (papers : List Paper) :
    (rankPapersByQualityScore currentYear log10 papers).length = papers.length := by
  unfold rankPapersByQualityScore
  rw [List.length_insertionSort, List.length_map]

/-- Rounding a rational that is an integer cast yields that integer. -/
theorem round_intCast_q (n : ℤ) : round ((n : ℚ)) = n := round_intCast n

/-! ### C1 -/

/-- A one-paper input realising the sentiment buckets
positive=0%, negative=100%, neutral=0%. -/
def allNegativeInput : SearchResults :=
  { papers := [{ title := "contradicting paper", source := Source.pubmed,
                 qualityScore := some 1,
                 paperSentiment := some { sentiment := "NEGATIVE",
                                          confidence := some 1,
                                          reason := "refutes the claim" } }],
    count := 1, medicalQuery := "q" }

/-- C1: whenever at least one paper carries a sentiment,
`calculateTruthScore` returns a truth score equal to the rounded
positive percentage minus the rounded negative percentage, clamped to
[0, 100]; in particular, for buckets positive=0%, negative=100%,
neutral=0% the truth score is 0, not -100. -/
theorem truthScore_clamped_difference (pr : SearchResults) (claim : String)
    (h : 0 < (papersWithSentiment pr.papers).length) :
    ((calculateTruthScore pr claim).breakdown =
      researchBreakdownOf (papersWithSentiment pr.papers)) ∧
    ((calculateTruthScore pr claim).truthScore =
      max 0 (min 100 ((calculateTruthScore pr claim).breakdown.positive -
        (calculateTruthScore pr claim).breakdown.negative))) ∧
    (calculateTruthScore allNegativeInput "any claim").breakdown =
      { positive := 0, negative := 100, neutral := 0 } ∧
    (calculateTruthScore allNegativeInput "any claim").truthScore = 0 := by
  have hp : 0 < pr.papers.length :=
    lt_of_lt_of_le h (List.length_filter_le _ _)
  refine ⟨?_, ?_, by with_unfolding_all decide, by with_unfolding_all decide⟩
  · simp only [calculateTruthScore, gt_iff_lt, hp, h, if_true]
  · simp only [calculateTruthScore, gt_iff_lt, hp, h, if_true]
    have hcast :
        (max 0 (min 100 (((researchBreakdownOf (papersWithSentiment pr.papers)).positive -
            (researchBreakdownOf (papersWithSentiment pr.papers)).negative : ℤ) : ℚ))) =
          (((max 0 (min 100 ((researchBreakdownOf (papersWithSentiment pr.papers)).positive -
            (researchBreakdownOf (papersWithSentiment pr.papers)).negative)) : ℤ) : ℚ)) := by
      push_cast
      rfl
    rw [hcast, round_intCast_q]

/-- C1 witness. -/
theorem truthScore_clamped_difference_witness :
    0 < (papersWithSentiment allNegativeInput.papers).length ∧
    (calculateTruthScore allNegativeInput "c").truthScore =
      max 0 (min 100 ((calculateTruthScore allNegativeInput "c").breakdown.positive -
        (calculateTruthScore allNegativeInput "c").breakdown.negative)) :=
  ⟨by decide, (truthScore_clamped_difference allNegativeInput "c" (by decide)).2.1⟩

/-! ### C2 -/

/-- The end-to-end scenario of the spec: five analysed papers, three
POSITIVE with confidence 0.8 and quality score 0.3, two NEGATIVE with
confidence 0.6 and quality score 0.2. -/
def c2Scenario : SearchResults :=
  { papers :=
      [{ title := "Pos1", source := Source.semantic_scholar,
         qualityScore := some 0.3,
         paperSentiment := some { sentiment := "POSITIVE", confidence := some 0.8, reason := "supports" } },
       { title := "Pos2", source := Source.semantic_scholar,
         qualityScore := some 0.3,
         paperSentiment := some { sentiment := "POSITIVE", confidence := some 0.8, reason := "supports" } },
       { title := "Pos3", source := Source.semantic_scholar,
         qualityScore := some 0.3,
         paperSentiment := some { sentiment := "POSITIVE", confidence := some 0.8, reason := "supports" } },
       { title := "Neg1", source := Source.pubmed,
         qualityScore := some 0.2,
         paperSentiment := some { sentiment := "NEGATIVE", confidence := some 0.6, reason := "contradicts" } },
       { title := "Neg2", source := Source.pubmed,
         qualityScore := some 0.2,
         paperSentiment := some { sentiment := "NEGATIVE", confidence := some 0.6, reason := "contradicts" } }],
    count := 5, medicalQuery := "vitamin D common cold prevention" }

/-- C2 counterexample: on the spec's end-to-end scenario the code
normalises the quality weights by their sum (1.3), which yields
positive% = 55, negative% = 18, truthScore = 37 — not the claimed
72 / 24 / 48. -/
theorem c2_scenario_counterexample :
    (calculateTruthScore c2Scenario "vitamin D prevents colds").breakdown.positive = 55 ∧
    (calculateTruthScore c2Scenario "vitamin D prevents colds").breakdown.negative = 18 ∧
    (calculateTruthScore c2Scenario "vitamin D prevents colds").truthScore = 37 ∧
    (calculateTruthScore c2Scenario "vitamin D prevents colds").confidence = 90 ∧
    ¬((calculateTruthScore c2Scenario "vitamin D prevents colds").breakdown.positive = 72 ∧
      (calculateTruthScore c2Scenario "vitamin D prevents colds").breakdown.negative = 24 ∧
      (calculateTruthScore c2Scenario "vitamin D prevents colds").truthScore = 48) := by
  with_unfolding_all decide

/-- C2 amended: on the spec's end-to-end scenario the code returns
positive% = 55, negative% = 18, truthScore = 37 and confidence = 90
(each paper's weight being `qualityScore / Σ qualityScore`). -/
theorem c2_scenario_amended :
    calculateTruthScore c2Scenario "vitamin D prevents colds" =
      { truthScore := 37, confidence := 90, paperCount := 5,
        breakdown := { positive := 55, negative := 18, neutral := 0 } } := by
  with_unfolding_all decide

/-! ### C4 -/

/-- C4: the confidence of `calculateTruthScore` is a step function of
the paper count only (0 → 50, 1-2 → 60, 3-4 → 80, ≥5 → 90), and with
zero sentiment-bearing papers the score is the neutral 50 while the
confidence stays banded by paper count. -/
theorem confidence_banding (pr : SearchResults) (claim : String) :
    ((pr.count = 0 → (calculateTruthScore pr claim).confidence = 50) ∧
     ((pr.count = 1 ∨ pr.count = 2) → (calculateTruthScore pr claim).confidence = 60) ∧
     ((pr.count = 3 ∨ pr.count = 4) → (calculateTruthScore pr claim).confidence = 80) ∧
     (5 ≤ pr.count → (calculateTruthScore pr claim).confidence = 90)) ∧
    ((papersWithSentiment pr.papers).length = 0 →
      (calculateTruthScore pr claim).truthScore = 50) := by
  constructor
  · have hconf : (calculateTruthScore pr claim).confidence = confidenceBand pr.count := rfl
    rw [hconf, confidenceBand]
    refine ⟨fun h => ?_, fun h => ?_, fun h => ?_, fun h => ?_⟩ <;>
      (split_ifs <;> omega)
  · intro h
    have h50 : round ((50 : ℚ)) = 50 := by norm_num [round_eq]
    rcases Nat.eq_zero_or_pos pr.papers.length with hp | hp
    · simp [calculateTruthScore, hp, h, h50]
    · simp [calculateTruthScore, hp, h, h50]

/-- C4 witness. -/
theorem confidence_banding_witness :
    ((3 : ℕ) = 3 ∨ (3 : ℕ) = 4) ∧
    (calculateTruthScore { papers := [], count := 3, medicalQuery := "q" } "c").confidence = 80 ∧
    (papersWithSentiment ([] : List Paper)).length = 0 ∧
    (calculateTruthScore { papers := [], count := 3, medicalQuery := "q" } "c").truthScore = 50 :=
  ⟨Or.inl rfl,
   (confidence_banding { papers := [], count := 3, medicalQuery := "q" } "c").1.2.2.1 (Or.inl rfl),
   rfl,
   (confidence_banding { papers := [], count := 3, medicalQuery := "q" } "c").2 rfl⟩

/-! ### C9 -/

/-- C9: `searchHybrid` returns at most five papers with `count` equal
to the length of the papers list; consequently any truth score computed
with that count reports `paperCount ≤ 5` and reaches confidence 90
exactly when five papers were analysed. -/
theorem searchHybrid_top5_invariant (inp : HybridInputs) :
    ((searchHybridCore inp).count = (searchHybridCore inp).papers.length ∧
      (searchHybridCore inp).count ≤ 5) ∧
    ∀ (analyzedPapers : List Paper) (claim : String),
      (calculateTruthScore
        { papers := analyzedPapers, count := (searchHybridCore inp).count,
          medicalQuery := (searchHybridCore inp).medicalQuery } claim).paperCount ≤ 5 ∧
      ((calculateTruthScore
        { papers := analyzedPapers, count := (searchHybridCore inp).count,
          medicalQuery := (searchHybridCore inp).medicalQuery } claim).confidence = 90 ↔
        (searchHybridCore inp).count = 5) := by
  have hle : (searchHybridCore inp).count ≤ 5 := by
    unfold searchHybridCore
    split
    · simp
    · simp only []
      rw [length_extractStudyMetadata, List.length_take]
      exact min_le_left _ _
  have hcount : (searchHybridCore inp).count = (searchHybridCore inp).papers.length := by
    unfold searchHybridCore
    split <;> simp
  refine ⟨⟨hcount, hle⟩, fun analyzedPapers claim => ⟨hle, ?_⟩⟩
  have hconf :
      (calculateTruthScore
        { papers := analyzedPapers, count := (searchHybridCore inp).count,
          medicalQuery := (searchHybridCore inp).medicalQuery } claim).confidence =
        confidenceBand (searchHybridCore inp).count := rfl
  rw [hconf, confidenceBand]
  split_ifs <;> omega

/-! ### C10 -/

/-- C10: `calculateTruthScore` is a pure function whose result does not
depend on the claim string: the body never reads `claim`. -/
theorem calculateTruthScore_claim_independent (pubmedResults : SearchResults)
    (claim1 claim2 : String) :
    calculateTruthScore pubmedResults claim1 =
      calculateTruthScore pubmedResults claim2 := rfl

/-! ### C6 -/

/-- C6: under the quality formula, any paper with 1000 influential
citations published in the current year is scored strictly above, and
ranked strictly before, any paper with 0 influential citations
published 25 years earlier.  The two assumptions about `log10` —
`log10(1) = 0` and `log10(1001) > 0` — are facts of the real base-10
logarithm that `Math.log10` computes. -/
theorem quality_ranking_recent_cited_first (currentYear : ℤ) (log10 : ℕ → ℚ)
    (hlog1 : log10 1 = 0) (hlogpos : 0 < log10 1001)
    (p1 p2 : Paper)
    (h1c : p1.influentialCitations = some 1000)
    (h1y : jsParseInt p1.year = some currentYear)
    (h2c : p2.influentialCitations = some 0)
    (h2y : jsParseInt p2.year = some (currentYear - 25)) :
    (scorePaper currentYear log10 p2).qualityScore.getD 0 <
      (scorePaper currentYear log10 p1).qualityScore.getD 0 ∧
    rankPapersByQualityScore currentYear log10 [p2, p1] =
      [scorePaper currentYear log10 p1, scorePaper currentYear log10 p2] := by
  have hq1 : (scorePaper currentYear log10 p1).qualityScore.getD 0 =
      log10 1001 / 3.5 * 0.6 + 0.4 := by
    simp [scorePaper, h1c, h1y, jsOrInt, jsOrNat]
  have hq2 : (scorePaper currentYear log10 p2).qualityScore.getD 0 ≤ 0.4 := by
    by_cases hz : currentYear - 25 = 0
    · simp [scorePaper, h2c, h2y, jsOrInt, jsOrNat, hz, hlog1]
    · simp [scorePaper, h2c, h2y, jsOrInt, jsOrNat, hz, hlog1]
      norm_num
  have hpos : (0 : ℚ) < log10 1001 / 3.5 * 0.6 := by positivity
  have hlt : (scorePaper currentYear log10 p2).qualityScore.getD 0 <
      (scorePaper currentYear log10 p1).qualityScore.getD 0 := by
    rw [hq1]
    exact lt_of_le_of_lt hq2 (by linarith)
  refine ⟨hlt, ?_⟩
  have hnot : ¬ rankRel (scorePaper currentYear log10 p2)
      (scorePaper currentYear log10 p1) := not_le.mpr hlt
  simp [rankPapersByQualityScore, List.insertionSort, List.orderedInsert, hnot]

/-- A concrete stand-in for `Math.log10` satisfying the two facts C6
needs of the real logarithm. -/
def c6Log : ℕ → ℚ := fun n => if n = 1 then 0 else 3

/-- A current-year paper with 1000 influential citations. -/
def c6Recent : Paper :=
  { title := "Recent influential", year := "2025",
    influentialCitations := some 1000, source := Source.semantic_scholar }

/-- A 25-year-old paper with no influential citations. -/
def c6Old : Paper :=
  { title := "Old uncited", year := "2000",
    influentialCitations := some 0, source := Source.pubmed }

/-- C6 witness. -/
theorem quality_ranking_recent_cited_first_witness :
    c6Log 1 = 0 ∧ (0 : ℚ) < c6Log 1001 ∧
    ((scorePaper 2025 c6Log c6Old).qualityScore.getD 0 <
      (scorePaper 2025 c6Log c6Recent).qualityScore.getD 0 ∧
     rankPapersByQualityScore 2025 c6Log [c6Old, c6Recent] =
       [scorePaper 2025 c6Log c6Recent, scorePaper 2025 c6Log c6Old]) :=
  ⟨rfl, by decide,
   quality_ranking_recent_cited_first 2025 c6Log rfl (by decide)
     c6Recent c6Old rfl (by decide) rfl (by decide)⟩

/-! ### C7 -/

/-- C7: if the sentiment-extraction call throws for one paper, that
paper gets exactly the neutral fallback sentiment, and every other
(distinct) paper's result is what it would have been had that call not
thrown. -/
theorem analyze_fallback_isolated (claim : String)
    (f g : String → Paper → Option PaperSentiment)
    (papers : List Paper) (i : ℕ) (hi : i < papers.length)
    (hfail : f claim (papers.get ⟨i, hi⟩) = none)
    (hagree : ∀ p : Paper, p ≠ papers.get ⟨i, hi⟩ → f claim p = g claim p) :
    ((analyzePapers (some f) claim papers)[i]?).map (fun p => p.paperSentiment) =
      some (some { sentiment := "NEUTRAL", confidence := some 0.5,
                   reason := "Analysis failed" }) ∧
    ∀ j, ∀ hj : j < papers.length,
      papers.get ⟨j, hj⟩ ≠ papers.get ⟨i, hi⟩ →
      (analyzePapers (some f) claim papers)[j]? =
        (analyzePapers (some g) claim papers)[j]? := by
  constructor
  · simp only [analyzePapers, List.getElem?_map]
    rw [List.getElem?_eq_getElem hi]
    simp only [Option.map_some', List.get_eq_getElem] at hfail ⊢
    simp [analyzeOnePaper, hfail]
  · intro j hj hne
    simp only [analyzePapers, List.getElem?_map]
    rw [List.getElem?_eq_getElem hj]
    simp only [List.get_eq_getElem] at hne
    have heq := hagree _ hne
    simp [analyzeOnePaper, heq]

/-- The paper whose analysis call is made to throw in the C7 witness. -/
def c7PaperA : Paper := { title := "Analysis throws here", source := Source.pubmed }

/-- A sibling paper whose analysis call succeeds. -/
def c7PaperB : Paper := { title := "Sibling paper", source := Source.pubmed }

/-- A sentiment-extraction oracle that throws exactly on `c7PaperA`. -/
def c7Fail : String → Paper → Option PaperSentiment := fun _ p =>
  if p = c7PaperA then none
  else some { sentiment := "POSITIVE", confidence := some 0.9, reason := "ok" }

/-- The same oracle without the throw. -/
def c7Ok : String → Paper → Option PaperSentiment := fun _ _ =>
  some { sentiment := "POSITIVE", confidence := some 0.9, reason := "ok" }

/-- C7 witness. -/
theorem analyze_fallback_isolated_witness :
    c7Fail "claim" ([c7PaperA, c7PaperB].get ⟨0, by decide⟩) = none ∧
    ((analyzePapers (some c7Fail) "claim" [c7PaperA, c7PaperB])[0]?).map
        (fun p => p.paperSentiment) =
      some (some { sentiment := "NEUTRAL", confidence := some 0.5,
                   reason := "Analysis failed" }) ∧
    (analyzePapers (some c7Fail) "claim" [c7PaperA, c7PaperB])[1]? =
      (analyzePapers (some c7Ok) "claim" [c7PaperA, c7PaperB])[1]? := by
  have h := analyze_fallback_isolated "claim" c7Fail c7Ok [c7PaperA, c7PaperB]
    0 (by decide) (by with_unfolding_all decide)
    (fun p hp => by
      simp only [List.get_eq_getElem, List.getElem_cons_zero] at hp
      simp [c7Fail, c7Ok, if_neg hp])
  exact ⟨by with_unfolding_all decide, h.1, h.2 1 (by decide) (by decide)⟩

/-! ### Pipeline length/title lemmas -/

/-- `searchHybrid` reports as `count` the length of the papers it returns. -/
theorem searchHybridCore_count_papers (inp : HybridInputs) :
    (searchHybridCore inp).count = (searchHybridCore inp).papers.length := by
  unfold searchHybridCore
  split <;> simp

/-- The `count` of a `searchHybrid` run is the number of surviving
papers, capped at five. -/
theorem searchHybridCore_count_eq (inp : HybridInputs) :
    (searchHybridCore inp).count = min 5 (survivingPapers inp).length := by
  unfold searchHybridCore
  split
  · next hb =>
    have hps : survivingPapers inp = [] := by
      simp [survivingPapers, mergeDedup, mergeStep, enrichPubMedWithCitations,
        fetchMissingAbstracts, List.length_eq_zero.mp hb.1,
        List.length_eq_zero.mp hb.2]
    simp [hps]
  · simp only []
    rw [length_extractStudyMetadata, List.length_take,
      length_rankPapersByQualityScore]

/-- `summarizeAbstracts` produces one summary per input item. -/
theorem length_summarizeAbstracts (summarizer : Option (String → Option String))
    (abstracts : List AbstractItem) :
    (summarizeAbstracts summarizer abstracts).length = abstracts.length := by
  cases summarizer <;> simp [summarizeAbstracts]

/-- `fetchAbstracts` projects papers one-to-one. -/
theorem length_fetchAbstracts (papers : List Paper) :
    (fetchAbstracts papers).length = papers.length := by
  simp [fetchAbstracts]

/-- `summarizeAbstracts` preserves each item's title. -/
theorem titles_summarizeAbstracts (summarizer : Option (String → Option String))
    (abstracts : List AbstractItem) :
    (summarizeAbstracts summarizer abstracts).map (fun s => s.title) =
      abstracts.map (fun a => a.title) := by
  cases summarizer with
  | none => simp [summarizeAbstracts, List.map_map]
  | some f =>
    simp only [summarizeAbstracts, List.map_map]
    refine List.map_congr_left fun a _ => ?_
    simp only [Function.comp_apply]
    rcases hfa : f (a.abstract.getD "") with _ | s <;> simp [hfa]

/-- `fetchAbstracts` preserves each paper's title. -/
theorem titles_fetchAbstracts (papers : List Paper) :
    (fetchAbstracts papers).map (fun a => a.title) =
      papers.map (fun p => p.title) := by
  simp only [fetchAbstracts, List.map_map]
  exact List.map_congr_left fun p _ => rfl

/-- The numbered research summary has exactly one entry per simplified
item. -/
theorem length_factCheckEntries (simplified : List SimplifiedItem) :
    (factCheckEntries simplified).length = simplified.length := by
  simp [factCheckEntries]

/-! ### C3 -/

/-- C3 counterexample: six papers survive merging, backfill and the
abstract filter, yet the narrative prompt contains entries for only The
top five; papers ranked sixth and below never reach the prompt. -/
def c3Inputs : PipelineInputs :=
  { currentYear := 2025, log10 := fun _ => 0, medicalQuery := "vitamin D colds",
    pubmedPapers := [],
    semanticPapers :=
      [{ title := "S1", source := Source.semantic_scholar, abstract := some "a1", year := "2024" },
       { title := "S2", source := Source.semantic_scholar, abstract := some "a2", year := "2023" },
       { title := "S3", source := Source.semantic_scholar, abstract := some "a3", year := "2022" },
       { title := "S4", source := Source.semantic_scholar, abstract := some "a4", year := "2021" },
       { title := "S5", source := Source.semantic_scholar, abstract := some "a5", year := "2020" },
       { title := "S6", source := Source.semantic_scholar, abstract := some "a6", year := "2019" }],
    s2Lookup := fun _ => none, backfill := fun _ => none, metaSession := none,
    claim := "vitamin D prevents colds", summarizer := none,
    analyzeSession := none }

set_option maxRecDepth 100000 in
/-- C3 counterexample: with six surviving papers the prompt numbers only
five entries, so it does not cover every ranked-and-analyzed survivor. -/
theorem narrative_entries_counterexample :
    outcomeEntryCount (runFactCheck c3Inputs) = 5 ∧
    (survivingPapers c3Inputs.toHybridInputs).length = 6 ∧
    outcomeEntryCount (runFactCheck c3Inputs) ≠
      (survivingPapers c3Inputs.toHybridInputs).length := by
  with_unfolding_all decide

/-- C3 amended: for every completed run, the narrative prompt contains
exactly one numbered entry per paper returned by `searchHybrid` — the
quality-ranked top five (fewer when fewer survive), not all survivors —
listing exactly those papers' titles. -/
theorem narrative_entries_top5 (inp : PipelineInputs)
    (h : 0 < (searchHybridCore inp.toHybridInputs).count) :
    outcomeEntryCount (runFactCheck inp) =
      min 5 (survivingPapers inp.toHybridInputs).length ∧
    outcomeTitles (runFactCheck inp) =
      (searchHybridCore inp.toHybridInputs).papers.map (fun p => p.title) := by
  have hne : (searchHybridCore inp.toHybridInputs).count ≠ 0 :=
    Nat.pos_iff_ne_zero.mp h
  simp only [runFactCheck]
  rw [if_neg hne]
  constructor
  · simp only [outcomeEntryCount]
    rw [length_factCheckEntries, List.length_map, length_summarizeAbstracts,
      length_fetchAbstracts, ← searchHybridCore_count_papers,
      searchHybridCore_count_eq]
  · simp only [outcomeTitles, List.map_map]
    have hsimp :
        (summarizeAbstracts inp.summarizer
            (fetchAbstracts (searchHybridCore inp.toHybridInputs).papers)).map
          ((fun s : SimplifiedItem => s.title) ∘ (fun s : SummaryItem =>
            ({ paperId := s.paperId, pmid := s.pmid, title := s.title,
               summary := s.summary, simplified := s.summary } : SimplifiedItem))) =
          (summarizeAbstracts inp.summarizer
            (fetchAbstracts (searchHybridCore inp.toHybridInputs).papers)).map
            (fun s => s.title) :=
      List.map_congr_left fun s _ => rfl
    rw [hsimp, titles_summarizeAbstracts, titles_fetchAbstracts]

/-- A one-paper pipeline input on which the C3 witness instantiates the
amended theorem. -/
def c3WitnessInputs : PipelineInputs :=
  { currentYear := 2025, log10 := fun _ => 0, medicalQuery := "q",
    pubmedPapers := [],
    semanticPapers := [{ title := "W1", source := Source.semantic_scholar,
                         abstract := some "a", year := "2024" }],
    s2Lookup := fun _ => none, backfill := fun _ => none, metaSession := none,
    claim := "c", summarizer := none, analyzeSession := none }

set_option maxRecDepth 100000 in
/-- C3 witness. -/
theorem narrative_entries_top5_witness :
    0 < (searchHybridCore c3WitnessInputs.toHybridInputs).count ∧
    outcomeEntryCount (runFactCheck c3WitnessInputs) =
      min 5 (survivingPapers c3WitnessInputs.toHybridInputs).length :=
  ⟨by with_unfolding_all decide,
   (narrative_entries_top5 c3WitnessInputs (by with_unfolding_all decide)).1⟩

/-! ### C8 -/

/-- C8 amended: when both search sources return empty the pipeline
terminates with count 0 before scoring and builds no narrative prompt;
but the abort condition is `count = 0`, which both-sources-empty implies
without being its only cause. -/
theorem bothEmpty_aborts (inp : PipelineInputs) :
    (inp.pubmedPapers = [] ∧ inp.semanticPapers = [] →
      (searchHybridCore inp.toHybridInputs).count = 0 ∧
      runFactCheck inp = PipelineOutcome.noResearch) ∧
    (runFactCheck inp = PipelineOutcome.noResearch ↔
      (searchHybridCore inp.toHybridInputs).count = 0) := by
  have hiff : runFactCheck inp = PipelineOutcome.noResearch ↔
      (searchHybridCore inp.toHybridInputs).count = 0 := by
    rcases Nat.eq_zero_or_pos (searchHybridCore inp.toHybridInputs).count with h | h
    · simp [runFactCheck, h]
    · have hne : (searchHybridCore inp.toHybridInputs).count ≠ 0 :=
        Nat.pos_iff_ne_zero.mp h
      simp only [runFactCheck]
      rw [if_neg hne]
      simp [hne]
  refine ⟨fun h => ?_, hiff⟩
  have h0 : (searchHybridCore inp.toHybridInputs).count = 0 := by
    unfold searchHybridCore
    rw [if_pos ⟨by simp [h.1], by simp [h.2]⟩]
  exact ⟨h0, hiff.mpr h0⟩

/-- A pipeline input whose PubMed source returns one abstract-less
paper and whose Semantic Scholar source returns nothing: the pipeline
still aborts with count 0, though the sources were not both empty. -/
def c8Inputs : PipelineInputs :=
  { currentYear := 2025, log10 := fun _ => 0, medicalQuery := "q",
    pubmedPapers := [{ title := "No abstract anywhere", source := Source.pubmed,
                       pmid := some "12345" }],
    semanticPapers := [], s2Lookup := fun _ => none, backfill := fun _ => none,
    metaSession := none, claim := "c", summarizer := none,
    analyzeSession := none }

set_option maxRecDepth 100000 in
/-- C8 counterexample: both-sources-empty is not the only condition that
aborts the pipeline before scoring — a non-empty source whose papers all
end up without abstracts aborts too. -/
theorem bothEmpty_aborts_counterexample :
    runFactCheck c8Inputs = PipelineOutcome.noResearch ∧
    ¬(c8Inputs.pubmedPapers = [] ∧ c8Inputs.semanticPapers = []) := by
  with_unfolding_all decide

/-- The both-sources-empty input for the C8 witness. -/
def c8EmptyInputs : PipelineInputs :=
  { currentYear := 2025, log10 := fun _ => 0, medicalQuery := "q",
    pubmedPapers := [], semanticPapers := [], s2Lookup := fun _ => none,
    backfill := fun _ => none, metaSession := none, claim := "c",
    summarizer := none, analyzeSession := none }

/-- C8 witness. -/
theorem bothEmpty_aborts_witness :
    (c8EmptyInputs.pubmedPapers = [] ∧ c8EmptyInputs.semanticPapers = []) ∧
    ((searchHybridCore c8EmptyInputs.toHybridInputs).count = 0 ∧
      runFactCheck c8EmptyInputs = PipelineOutcome.noResearch) :=
  ⟨⟨rfl, rfl⟩, (bothEmpty_aborts c8EmptyInputs).1 ⟨rfl, rfl⟩⟩

/-! ### C5 -/

/-- A paper that passed the duplicate test has a lowercased title
outside the seen-title set. -/
theorem not_dup_title {ds ts : List String} {p : Paper}
    (h : ¬ dedupeIsDuplicate ds ts p = true) : jsToLower p.title ∉ ts := by
  intro hmem
  apply h
  simp only [dedupeIsDuplicate, Bool.or_eq_true]
  exact Or.inr (by simpa using hmem)

/-- A paper that passed the duplicate test has a truthy DOI outside the
seen-DOI set. -/
theorem not_dup_doi {ds ts : List String} {p : Paper}
    (h : ¬ dedupeIsDuplicate ds ts p = true) :
    ∀ d, p.doi = some d → d ≠ "" → d ∉ ds := by
  intro d hd hdne hmem
  apply h
  simp only [dedupeIsDuplicate, Bool.or_eq_true, hd]
  exact Or.inl (by simp [hdne]; simpa using hmem)

/-- The seen-DOI set only grows at each merge step. -/
theorem subset_dedupeAddDoi (ds : List String) (p : Paper) :
    ds ⊆ dedupeAddDoi ds p := by
  unfold dedupeAddDoi
  rcases hd : p.doi with _ | d
  · exact fun x hx => hx
  · show ds ⊆ if d ≠ "" then d :: ds else ds
    split
    · exact fun x hx => List.mem_cons_of_mem _ hx
    · exact fun x hx => hx

/-- Structure of the merge loop: the accumulator is extended by a
sublist of the remaining PubMed papers, each appended paper's lowercased
title avoids the seen-title set, the appended titles are pairwise
distinct, and each appended paper's truthy DOI avoids the seen-DOI set. -/
theorem mergeStep_spec (l : List Paper) :
    ∀ (acc : List Paper) (ds ts : List String),
    ∃ kept : List Paper,
      mergeStep acc ds ts l = acc ++ kept ∧
      kept.Sublist l ∧
      (∀ q ∈ kept, jsToLower q.title ∉ ts) ∧
      (kept.map (fun q => jsToLower q.title)).Nodup ∧
      (∀ q ∈ kept, ∀ d, q.doi = some d → d ≠ "" → d ∉ ds) := by
  induction l with
  | nil =>
    intro acc ds ts
    exact ⟨[], by simp [mergeStep], by simp, by simp, by simp, by simp⟩
  | cons p rest ih =>
    intro acc ds ts
    by_cases hdup : dedupeIsDuplicate ds ts p = true
    · obtain ⟨kept, h1, h2, h3, h4, h5⟩ := ih acc ds ts
      exact ⟨kept, by simp [mergeStep, hdup, h1], h2.cons _, h3, h4, h5⟩
    · obtain ⟨kept, h1, h2, h3, h4, h5⟩ :=
        ih (acc ++ [p]) (dedupeAddDoi ds p) (jsToLower p.title :: ts)
      refine ⟨p :: kept, ?_, h2.cons₂ _, ?_, ?_, ?_⟩
      · simp [mergeStep, hdup, h1]
      · intro q hq
        rcases List.mem_cons.mp hq with rfl | hq'
        · exact not_dup_title hdup
        · exact fun hmem => h3 q hq' (List.mem_cons_of_mem _ hmem)
      · simp only [List.map_cons, List.nodup_cons]
        refine ⟨?_, h4⟩
        intro hmem
        obtain ⟨q, hq, hqt⟩ := List.mem_map.mp hmem
        exact h3 q hq (hqt ▸ List.mem_cons_self _ _)
      · intro q hq d hd hdne
        rcases List.mem_cons.mp hq with rfl | hq'
        · exact not_dup_doi hdup d hd hdne
        · exact fun hmem =>
            h5 q hq' d hd hdne (subset_dedupeAddDoi ds p hmem)

/-- Completeness of the merge loop: a DOI-less paper whose lowercased
title is fresh for the seen set and unique in the remaining list is
appended. -/
theorem mergeStep_mem_of_fresh (l : List Paper) :
    ∀ (acc : List Paper) (ds ts : List String) (pp : Paper),
    pp ∈ l → pp.doi = none → jsToLower pp.title ∉ ts →
    (∀ q ∈ l, q ≠ pp → jsToLower q.title ≠ jsToLower pp.title) →
    pp ∈ mergeStep acc ds ts l := by
  induction l with
  | nil => simp
  | cons p rest ih =>
    intro acc ds ts pp hmem hdoi hts huniq
    rcases List.mem_cons.mp hmem with rfl | hmem'
    · have hnd : ¬ dedupeIsDuplicate ds ts pp = true := by
        simp only [dedupeIsDuplicate, hdoi, Bool.or_eq_true, Bool.false_eq_true,
          false_or]
        simpa using hts
      obtain ⟨kept, h1, _, _, _, _⟩ :=
        mergeStep_spec rest (acc ++ [pp]) (dedupeAddDoi ds pp)
          (jsToLower pp.title :: ts)
      simp [mergeStep, hnd, h1]
    · by_cases hdup : dedupeIsDuplicate ds ts p = true
      · have hrec := ih acc ds ts pp hmem' hdoi hts
          (fun q hq => huniq q (List.mem_cons_of_mem _ hq))
        simp [mergeStep, hdup, hrec]
      · by_cases hpp : p = pp
        · subst hpp
          obtain ⟨kept, h1, _, _, _, _⟩ :=
            mergeStep_spec rest (acc ++ [p]) (dedupeAddDoi ds p)
              (jsToLower p.title :: ts)
          simp [mergeStep, hdup, h1]
        · have hts' : jsToLower pp.title ∉ jsToLower p.title :: ts := by
            intro hmem2
            rcases List.mem_cons.mp hmem2 with heq | hmem3
            · exact huniq p (List.mem_cons_self _ _) hpp heq.symm
            · exact hts hmem3
          have hrec := ih (acc ++ [p]) (dedupeAddDoi ds p)
            (jsToLower p.title :: ts) pp hmem' hdoi hts'
            (fun q hq hne => huniq q (List.mem_cons_of_mem _ hq) hne)
          simp [mergeStep, hdup, hrec]

/-- C5: the merge keeps all Semantic Scholar papers first and appends a
PubMed paper exactly when neither its truthy DOI nor its lowercased
title was already seen; in particular, of two papers with identical
lowercased titles from different sources only the Semantic-Scholar one
survives. -/
theorem dedup_semantic_priority (semanticPapers pubmedPapers : List Paper) :
    ∃ kept : List Paper,
      mergeDedup semanticPapers pubmedPapers = semanticPapers ++ kept ∧
      kept.Sublist pubmedPapers ∧
      (∀ q ∈ kept,
        jsToLower q.title ∉ semanticPapers.map (fun sp => jsToLower sp.title)) ∧
      (kept.map (fun q => jsToLower q.title)).Nodup ∧
      (∀ q ∈ kept, ∀ d, q.doi = some d → d ≠ "" →
        d ∉ semanticDOIs semanticPapers) ∧
      (∀ pp ∈ pubmedPapers, pp.doi = none →
        jsToLower pp.title ∉ semanticPapers.map (fun sp => jsToLower sp.title) →
        (∀ q ∈ pubmedPapers, q ≠ pp →
          jsToLower q.title ≠ jsToLower pp.title) →
        pp ∈ mergeDedup semanticPapers pubmedPapers) ∧
      (∀ pp : Paper, pp.source = Source.pubmed →
        jsToLower pp.title ∈ semanticPapers.map (fun sp => jsToLower sp.title) →
        (∀ sp ∈ semanticPapers, sp.source = Source.semantic_scholar) →
        pp ∉ mergeDedup semanticPapers pubmedPapers) := by
  obtain ⟨kept, h1, h2, h3, h4, h5⟩ :=
    mergeStep_spec pubmedPapers semanticPapers (semanticDOIs semanticPapers)
      (semanticPapers.map (fun p => jsToLower p.title))
  refine ⟨kept, h1, h2, h3, h4, h5, ?_, ?_⟩
  · intro pp hmem hdoi hti huniq
    exact mergeStep_mem_of_fresh pubmedPapers semanticPapers _ _ pp hmem hdoi
      hti huniq
  · intro pp hsrc hti hsem hmem
    have hmem' : pp ∈ semanticPapers ++ kept := by
      rw [← h1]; exact hmem
    rcases List.mem_append.mp hmem' with hs | hk
    · have := hsem pp hs
      rw [hsrc] at this
      exact absurd this (by simp)
    · exact h3 pp hk hti

/-- The Semantic Scholar copy of a duplicated title. -/
def c5SemPaper : Paper :=
  { title := "Vitamin D and Colds", source := Source.semantic_scholar,
    abstract := some "abstract" }

/-- The PubMed copy of the same title (different case). -/
def c5PubPaper : Paper :=
  { title := "VITAMIN D AND COLDS", source := Source.pubmed,
    pmid := some "100" }

/-- C5 witness. -/
theorem dedup_semantic_priority_witness :
    jsToLower c5PubPaper.title ∈ [c5SemPaper].map (fun sp => jsToLower sp.title) ∧
    c5PubPaper ∉ mergeDedup [c5SemPaper] [c5PubPaper] ∧
    mergeDedup [c5SemPaper] [c5PubPaper] = [c5SemPaper] := by
  obtain ⟨kept, h1, h2, h3, h4, h5, h6, h7⟩ :=
    dedup_semantic_priority [c5SemPaper] [c5PubPaper]
  exact ⟨by decide, h7 c5PubPaper rfl (by decide) (by decide), by decide⟩

